import Mathlib

/-!
Verification of the roof-report normalization pipeline (src/roof_report_app.py).

The program manipulates JSON-like Python values (None, bool, int, str, list,
dict).  We embed such values as the inductive type `Value` below and translate
the relevant Python functions into Lean definitions over `Value`:

  * `safe_json_load`            (lines 74-86)
  * `_as_str` / `_as_bool` / `_as_list`  (lines 88-112, named `as_str` etc.
    here because a leading underscore is not a Lean identifier)
  * `normalize_and_validate_dual`  (lines 117-160)
  * `normalize_notes_with_gpt`  (lines 164-198), with the external OpenAI
    call modelled as an outcome parameter
  * `generate_customer_from_internal` (lines 265-283)
  * the manual-entry handler (lines 493-517)

The builtin Python operations used by the code (str(), .strip(), .lower(),
.title(), str.splitlines, dict.get, json.loads) are modelled explicitly;
json.loads is modelled by an executable recursive-descent parser of the JSON
grammar (floats and non-ASCII case conversion are outside the model; no claim
touches them).
-/

/-- Embedding of the JSON-like Python values the program manipulates. -/
inductive Value where
  | null : Value
  | bool : Bool → Value
  | int : Int → Value
  | str : String → Value
  | list : List Value → Value
  | dict : List (String × Value) → Value

/-- The opening brace character (written this way to keep brace characters out
of the source text). -/
def lbrace : Char := Char.ofNat 123

/-- The closing brace character. -/
def rbrace : Char := Char.ofNat 125

/-- A single-quote character as a one-character string. -/
def squote : String := String.mk [Char.ofNat 39]

/-- Model of Python whitespace for str.strip (space, tab, newline, carriage
return, vertical tab, form feed). -/
def pySpace (c : Char) : Bool :=
  c == ' ' || c == '\t' || c == '\n' || c == '\r' || c == Char.ofNat 11 || c == Char.ofNat 12

/-- Strip `pySpace` characters from both ends of a character list. -/
def pyStripChars (l : List Char) : List Char :=
  ((l.dropWhile pySpace).reverse.dropWhile pySpace).reverse

/-- Model of Python str.strip(). -/
def pyStrip (s : String) : String :=
  String.mk (pyStripChars s.data)

/-- Model of Python str.lower() (ASCII). -/
def pyLower (s : String) : String :=
  String.mk (s.data.map Char.toLower)

/-- Helper for `pyTitle`: the Boolean argument records whether the previous
character was alphabetic. -/
def pyTitleAux : Bool → List Char → List Char
  | _, [] => []
  | prevAlpha, c :: cs =>
    if c.isAlpha then
      (if prevAlpha then c.toLower else c.toUpper) :: pyTitleAux true cs
    else
      c :: pyTitleAux false cs

/-- Model of Python str.title() (ASCII): a letter is uppercased when it follows
a non-letter and lowercased otherwise. -/
def pyTitle (s : String) : String :=
  String.mk (pyTitleAux false s.data)

mutual
/-- Model of Python repr() on the embedded values (string escaping inside
reprs is not modelled; only non-blankness of container reprs matters to the
program). -/
def pyRepr : Value → String
  | .null => "None"
  | .bool true => "True"
  | .bool false => "False"
  | .int n => toString n
  | .str s => squote ++ s ++ squote
  | .list xs => "[" ++ String.intercalate ", " (pyReprList xs) ++ "]"
  | .dict ps => "\x7b" ++ String.intercalate ", " (pyReprPairs ps) ++ "\x7d"

/-- repr of the elements of a Python list. -/
def pyReprList : List Value → List String
  | [] => []
  | x :: xs => pyRepr x :: pyReprList xs

/-- repr of the entries of a Python dict. -/
def pyReprPairs : List (String × Value) → List String
  | [] => []
  | (k, v) :: ps => (squote ++ k ++ squote ++ ": " ++ pyRepr v) :: pyReprPairs ps
end

/-- Model of Python str() on the embedded values. -/
def pyStr : Value → String
  | .str s => s
  | v => pyRepr v

/-- Model of dict.get(k) with default None: first entry with the given key,
or null. -/
def lookupd : List (String × Value) → String → Value
  | [], _ => Value.null
  | p :: ps, k => if p.1 = k then p.2 else lookupd ps k

/-- Model of lines 126-127: `data.get(k)` when that is a dict, the empty dict
otherwise. -/
def subDict (kvs : List (String × Value)) (k : String) : List (String × Value) :=
  match lookupd kvs k with
  | .dict d => d
  | _ => []

/-- Translation of `_as_str` (lines 88-92): None becomes the default, any
other value becomes its stripped str() form, with blank results replaced by
the default. -/
def as_str (v : Value) (d : String) : String :=
  match v with
  | .null => d
  | _ =>
    let s := pyStrip (pyStr v)
    if s = "" then d else s

/-- Translation of `_as_bool` (lines 94-103). -/
def as_bool (v : Value) : Bool :=
  match v with
  | .bool b => b
  | .str s =>
    let t := pyLower (pyStrip s)
    if t ∈ (["true", "yes", "y"] : List String) then true
    else if t ∈ (["false", "no", "n"] : List String) then false
    else false
  | _ => false

/-- Translation of `_as_list` (lines 105-112). -/
def as_list (v : Value) : List String :=
  match v with
  | .null => []
  | .list xs => (xs.map (fun x => pyStrip (pyStr x))).filter (fun s => s != "")
  | .str s => if pyStrip s != "" then [pyStrip s] else []
  | _ => []

/-- A list of strings packaged back as a Python list value. -/
def strList (l : List String) : Value :=
  Value.list (l.map Value.str)

/-- SEVERITY_SET (line 114), as a list. -/
def SEVERITY_SET : List String := ["Low", "Moderate", "High"]

/-- URGENCY_SET (line 115), as a list. -/
def URGENCY_SET : List String := ["Routine", "Soon", "Immediate"]

/-- The enum coercion performed by `normalize_and_validate_dual`: lines
140-141/148 build `_as_str(x, d).title()` and lines 153-158 replace the result
by `fb` when it is not in the allowed set (for severity and urgency the
fallback equals the default; for customer priority the fallback is the
already-coerced internal urgency). -/
def coerceEnum (v : Value) (d fb : String) (allowed : List String) : String :=
  let t := pyTitle (as_str v d)
  if t ∈ allowed then t else fb

/-- Translation of `normalize_and_validate_dual` (lines 117-160); a raised
ValueError is modelled as `Except.error` carrying the exception message. -/
def normalize_and_validate_dual (data : Value) : Except String Value :=
  match data with
  | .dict kvs =>
    let internal := subDict kvs "internal_report"
    let customer := subDict kvs "customer_report"
    let sev := coerceEnum (lookupd internal "severity") "Moderate" "Moderate" SEVERITY_SET
    let urg := coerceEnum (lookupd internal "urgency") "Soon" "Soon" URGENCY_SET
    let pri := coerceEnum (lookupd customer "priority") "Soon" urg URGENCY_SET
    .ok (.dict [
      ("internal_report", .dict [
        ("service_summary", .str (as_str (lookupd internal "service_summary") "Not specified")),
        ("roof_system", .str (as_str (lookupd internal "roof_system") "Not specified")),
        ("primary_issue", .str (as_str (lookupd internal "primary_issue") "Not specified")),
        ("location", .str (as_str (lookupd internal "location") "Not specified")),
        ("active_leak_reported", .bool (as_bool (lookupd internal "active_leak_reported"))),
        ("observations", strList (as_list (lookupd internal "observations"))),
        ("installation_site_conditions", strList (as_list (lookupd internal "installation_site_conditions"))),
        ("potential_concerns", strList (as_list (lookupd internal "potential_concerns"))),
        ("recommended_next_steps", strList (as_list (lookupd internal "recommended_next_steps"))),
        ("severity", .str sev),
        ("urgency", .str urg)]),
      ("customer_report", .dict [
        ("what_we_found", .str (as_str (lookupd customer "what_we_found") "Not specified")),
        ("why_this_matters", .str (as_str (lookupd customer "why_this_matters") "Not specified")),
        ("what_this_could_lead_to", strList (as_list (lookupd customer "what_this_could_lead_to"))),
        ("recommended_next_steps", strList (as_list (lookupd customer "recommended_next_steps"))),
        ("priority", .str pri)]),
      ("clarifying_questions", strList (as_list (lookupd kvs "clarifying_questions")))])
  | _ => .error "Parsed JSON is not an object."

/-- Whether a value is a mapping. -/
def Value.isDict : Value → Bool
  | .dict _ => true
  | _ => false

/-- Whether a value is a scalar (not None, not a list, not a dict). -/
def Value.isScalar : Value → Bool
  | .bool _ => true
  | .int _ => true
  | .str _ => true
  | _ => false

/-- JSON token whitespace (space, tab, newline, carriage return). -/
def jsonWs (c : Char) : Bool :=
  c == ' ' || c == '\t' || c == '\n' || c == '\r'

/-- Skip JSON whitespace. -/
def skipWs (l : List Char) : List Char :=
  l.dropWhile jsonWs

/-- Hexadecimal digit value. -/
def hexVal (c : Char) : Option Nat :=
  if c.isDigit then some (c.toNat - 48)
  else if 'a' ≤ c ∧ c ≤ 'f' then some (c.toNat - 87)
  else if 'A' ≤ c ∧ c ≤ 'F' then some (c.toNat - 55)
  else none

/-- Decimal value of a digit list. -/
def digitsToNat (ds : List Char) : Nat :=
  ds.foldl (fun acc c => acc * 10 + (c.toNat - 48)) 0

/-- Parse the body of a JSON string after the opening quote, returning the
decoded string and the remaining input. -/
def parseStrBody : Nat → List Char → Except String (String × List Char)
  | 0, _ => .error "Parser fuel exhausted"
  | _ + 1, [] => .error "Unterminated string"
  | fuel + 1, c :: rest =>
    if c == '\"' then .ok ("", rest)
    else if c == '\\' then
      match rest with
      | [] => .error "Unterminated string"
      | e :: rest2 =>
        let esc : Except String (Char × List Char) :=
          if e == '\"' then .ok ('\"', rest2)
          else if e == '\\' then .ok ('\\', rest2)
          else if e == '/' then .ok ('/', rest2)
          else if e == 'b' then .ok (Char.ofNat 8, rest2)
          else if e == 'f' then .ok (Char.ofNat 12, rest2)
          else if e == 'n' then .ok ('\n', rest2)
          else if e == 'r' then .ok ('\r', rest2)
          else if e == 't' then .ok ('\t', rest2)
          else if e == 'u' then
            match rest2 with
            | h1 :: h2 :: h3 :: h4 :: rest3 =>
              match hexVal h1, hexVal h2, hexVal h3, hexVal h4 with
              | some a, some b, some c2, some d =>
                .ok (Char.ofNat (((a * 16 + b) * 16 + c2) * 16 + d), rest3)
              | _, _, _, _ => .error "Invalid unicode escape"
            | _ => .error "Invalid unicode escape"
          else .error "Invalid escape"
        match esc with
        | .error m => .error m
        | .ok (ch, r) =>
          match parseStrBody fuel r with
          | .ok (s, r2) => .ok (String.mk (ch :: s.data), r2)
          | .error m => .error m
    else if c.toNat < 32 then .error "Invalid control character"
    else
      match parseStrBody fuel rest with
      | .ok (s, r2) => .ok (String.mk (c :: s.data), r2)
      | .error m => .error m

/-- Parse a JSON number (integers only; floats are outside the model). -/
def parseNumber (l : List Char) : Except String (Value × List Char) :=
  let (neg, l1) :=
    match l with
    | c :: rest => if c == '-' then (true, rest) else (false, l)
    | [] => (false, l)
  match l1 with
  | [] => .error "Expecting value"
  | c :: _ =>
    if !c.isDigit then .error "Expecting value"
    else
      let intPart := l1.takeWhile Char.isDigit
      let rest := l1.dropWhile Char.isDigit
      if intPart.length > 1 && intPart.headD '0' == '0' then
        .error "Expecting value"
      else
        match rest with
        | c2 :: _ =>
          if c2 == '.' || c2 == 'e' || c2 == 'E' then
            .error "Float literals are outside the model"
          else
            .ok (.int (if neg then -(digitsToNat intPart : Int) else (digitsToNat intPart : Int)), rest)
        | [] =>
          .ok (.int (if neg then -(digitsToNat intPart : Int) else (digitsToNat intPart : Int)), [])

/-- Insert a key into an association list, replacing the value at the first
occurrence of the key (Python dict semantics for duplicate JSON keys). -/
def updateAssoc : List (String × Value) → String → Value → List (String × Value)
  | [], k, v => [(k, v)]
  | (k0, v0) :: ps, k, v =>
    if k0 = k then (k0, v) :: ps else (k0, v0) :: updateAssoc ps k v

mutual
/-- Recursive-descent parser for a JSON value; the Nat argument is fuel. -/
def parseValue : Nat → List Char → Except String (Value × List Char)
  | 0, _ => .error "Parser fuel exhausted"
  | fuel + 1, l =>
    match skipWs l with
    | [] => .error "Expecting value"
    | c :: rest =>
      if c == lbrace then
        match skipWs rest with
        | c2 :: r2 =>
          if c2 == rbrace then .ok (.dict [], r2)
          else
            match parseMembers fuel (c2 :: r2) [] with
            | .ok (ms, r) => .ok (.dict ms, r)
            | .error e => .error e
        | [] => .error "Unterminated object"
      else if c == '[' then
        match skipWs rest with
        | c2 :: r2 =>
          if c2 == ']' then .ok (.list [], r2)
          else
            match parseItems fuel (c2 :: r2) [] with
            | .ok (xs, r) => .ok (.list xs, r)
            | .error e => .error e
        | [] => .error "Unterminated array"
      else if c == '\"' then
        match parseStrBody (rest.length + 1) rest with
        | .ok (s, r) => .ok (.str s, r)
        | .error e => .error e
      else if c == 't' then
        match rest with
        | 'r' :: 'u' :: 'e' :: r => .ok (.bool true, r)
        | _ => .error "Expecting value"
      else if c == 'f' then
        match rest with
        | 'a' :: 'l' :: 's' :: 'e' :: r => .ok (.bool false, r)
        | _ => .error "Expecting value"
      else if c == 'n' then
        match rest with
        | 'u' :: 'l' :: 'l' :: r => .ok (.null, r)
        | _ => .error "Expecting value"
      else parseNumber (c :: rest)

/-- Parse the items of a JSON array after the opening bracket. -/
def parseItems : Nat → List Char → List Value → Except String (List Value × List Char)
  | 0, _, _ => .error "Parser fuel exhausted"
  | fuel + 1, l, acc =>
    match parseValue fuel l with
    | .error e => .error e
    | .ok (v, r) =>
      match skipWs r with
      | c :: r2 =>
        if c == ',' then parseItems fuel r2 (acc ++ [v])
        else if c == ']' then .ok (acc ++ [v], r2)
        else .error "Expecting delimiter"
      | [] => .error "Unterminated array"

/-- Parse the members of a JSON object after the opening brace. -/
def parseMembers : Nat → List Char → List (String × Value) →
    Except String (List (String × Value) × List Char)
  | 0, _, _ => .error "Parser fuel exhausted"
  | fuel + 1, l, acc =>
    match skipWs l with
    | c :: rest =>
      if c == '\"' then
        match parseStrBody (rest.length + 1) rest with
        | .error e => .error e
        | .ok (k, r) =>
          match skipWs r with
          | c2 :: r2 =>
            if c2 == ':' then
              match parseValue fuel r2 with
              | .error e => .error e
              | .ok (v, r3) =>
                let acc2 := updateAssoc acc k v
                match skipWs r3 with
                | c3 :: r4 =>
                  if c3 == ',' then parseMembers fuel r4 acc2
                  else if c3 == rbrace then .ok (acc2, r4)
                  else .error "Expecting delimiter"
                | [] => .error "Unterminated object"
            else .error "Expecting colon"
          | [] => .error "Unterminated object"
      else .error "Expecting property name"
    | [] => .error "Unterminated object"
end

/-- Model of Python json.loads: parse one JSON value and require only
whitespace to follow it. -/
def json_loads (s : String) : Except String Value :=
  match parseValue (2 * s.data.length + 4) s.data with
  | .error e => .error e
  | .ok (v, rest) =>
    if (skipWs rest).isEmpty then .ok v else .error "Extra data"

/-- Index of the last occurrence of a character (Python str.rfind). -/
def rfindIdx (l : List Char) (c : Char) : Option Nat :=
  match l.reverse.findIdx? (fun x => x == c) with
  | some i => some (l.length - 1 - i)
  | none => none

/-- Characters from index s to index e inclusive (Python slice [s:e+1]). -/
def sliceChars (l : List Char) (s e : Nat) : List Char :=
  (l.drop s).take (e + 1 - s)

/-- The salvage substring of `safe_json_load` (lines 82-85): from the first
opening brace to the last closing brace inclusive, provided the closing brace
lies strictly after the opening one. -/
def salvageText (t : String) : Option String :=
  match t.data.findIdx? (fun c => c == lbrace), rfindIdx t.data rbrace with
  | some s, some e => if e > s then some (String.mk (sliceChars t.data s e)) else none
  | _, _ => none

/-- Translation of `safe_json_load` (lines 74-86): strict parse of the
stripped text, then a single salvage attempt; the original parse error is
re-raised when no salvage substring exists. -/
def safe_json_load (text : String) : Except String Value :=
  let t := pyStrip text
  match json_loads t with
  | .ok v => .ok v
  | .error e =>
    match salvageText t with
    | some sub => json_loads sub
    | none => .error e

/-- Whether an Except value is an error. -/
def isErr : Except String Value → Bool
  | .error _ => true
  | .ok _ => false

/-- The outcome of the external OpenAI chat-completion call in
`normalize_notes_with_gpt`: either a returned message content (possibly
None), or one of the exceptions the code catches (lines 185-198). -/
inductive ApiOutcome where
  | success (content : Option String)
  | rateLimit
  | timeout (detail : String)
  | apiError (detail : String)
  | other (detail : String)

/-- The rate-limit classification message (lines 186-189). -/
def rateLimitMsg : String :=
  "AI is temporarily unavailable due to usage/rate limits (often billing/credits/limits). Use Manual Normalize below or try again later."

/-- The invalid-JSON classification message (lines 193-196). -/
def invalidJsonMsg : String :=
  "AI returned a response that was not valid JSON. Try again, or use Manual Normalize below."

/-- Translation of `normalize_notes_with_gpt` (lines 164-198) with the
external call abstracted into its outcome.  A JSON parse failure raises
json.JSONDecodeError and is caught by the dedicated handler; the ValueError
raised by `normalize_and_validate_dual` is not a JSONDecodeError and falls
through to the generic `except Exception` handler. -/
def normalize_notes_with_gpt (o : ApiOutcome) : Option Value × Option String × Option String :=
  match o with
  | .success content =>
    match safe_json_load (content.getD "") with
    | .error _ => (none, none, some invalidJsonMsg)
    | .ok parsed =>
      match normalize_and_validate_dual parsed with
      | .error m => (none, none, some ("Unexpected error: " ++ m))
      | .ok validated => (some validated, content, none)
  | .rateLimit => (none, none, some rateLimitMsg)
  | .timeout d => (none, none, some ("AI service error: " ++ d))
  | .apiError d => (none, none, some ("AI service error: " ++ d))
  | .other d => (none, none, some ("Unexpected error: " ++ d))

/-- The internal-report shape produced by the manual-entry handler
(lines 497-509). -/
structure InternalReport where
  service_summary : String
  roof_system : String
  primary_issue : String
  location : String
  active_leak_reported : Bool
  observations : List String
  installation_site_conditions : List String
  potential_concerns : List String
  recommended_next_steps : List String
  severity : String
  urgency : String

/-- The customer-report shape produced by `generate_customer_from_internal`. -/
structure CustomerReport where
  what_we_found : String
  why_this_matters : String
  what_this_could_lead_to : List String
  recommended_next_steps : List String
  priority : String

/-- Translation of `generate_customer_from_internal` (lines 265-283), over
internal records that carry every field (as the manual handler builds them). -/
def generate_customer_from_internal (internal : InternalReport) : CustomerReport :=
  let issue := internal.primary_issue
  let conditions := internal.installation_site_conditions
  let conditions_line := if conditions ≠ [] then String.intercalate " " conditions else ""
  let why :=
    if conditions_line ≠ "" then conditions_line
    else "Further conditions/details were not specified in the notes."
  ⟨"We identified a concern related to: " ++ issue ++ ".", why,
    internal.potential_concerns, internal.recommended_next_steps, internal.urgency⟩

/-- An internal report as the Python dict built at lines 497-509. -/
def internalToValue (r : InternalReport) : Value :=
  .dict [
    ("service_summary", .str r.service_summary),
    ("roof_system", .str r.roof_system),
    ("primary_issue", .str r.primary_issue),
    ("location", .str r.location),
    ("active_leak_reported", .bool r.active_leak_reported),
    ("observations", strList r.observations),
    ("installation_site_conditions", strList r.installation_site_conditions),
    ("potential_concerns", strList r.potential_concerns),
    ("recommended_next_steps", strList r.recommended_next_steps),
    ("severity", .str r.severity),
    ("urgency", .str r.urgency)]

/-- A customer report as a Python dict (lines 277-283). -/
def customerToValue (c : CustomerReport) : Value :=
  .dict [
    ("what_we_found", .str c.what_we_found),
    ("why_this_matters", .str c.why_this_matters),
    ("what_this_could_lead_to", strList c.what_this_could_lead_to),
    ("recommended_next_steps", strList c.recommended_next_steps),
    ("priority", .str c.priority)]

/-- Translation of `_lines` (lines 493-494): split into lines, keep the
non-blank ones, strip each, remove leading dash bullets, strip again. -/
def linesOf (txt : String) : List String :=
  ((txt.split (fun c => c == '\n' || c == '\r')).filter
      (fun x => pyStrip x != "")).map
    (fun x => pyStrip (String.mk ((pyStrip x).data.dropWhile (fun c => c == '-'))))

/-- The internal dict built by the manual handler (lines 497-509): a blank
service summary is replaced by the sentinel sentence before validation. -/
def manual_internal (summary roof issue loc : String) (leak : Bool)
    (obs conds concerns steps sev urg : String) : InternalReport :=
  ⟨if pyStrip summary ≠ "" then pyStrip summary else "Manual entry provided.",
    roof, issue, loc, leak, linesOf obs, linesOf conds, linesOf concerns,
    linesOf steps, sev, urg⟩

/-- The manual-entry submission (lines 511-517): assemble the structured dict
and pass it through `normalize_and_validate_dual`. -/
def manual_submit (summary roof issue loc : String) (leak : Bool)
    (obs conds concerns steps sev urg : String) : Except String Value :=
  let internal := manual_internal summary roof issue loc leak obs conds concerns steps sev urg
  normalize_and_validate_dual (.dict [
    ("internal_report", internalToValue internal),
    ("customer_report", customerToValue (generate_customer_from_internal internal)),
    ("clarifying_questions", Value.list [])])

/-- Whether the character-list pattern occurs inside the haystack. -/
def containsSub (hay pat : List Char) : Bool :=
  match hay with
  | [] => pat.isEmpty
  | _ :: tl => pat.isPrefixOf hay || containsSub tl pat

/-- Modelled from the spec: the derivation-engine function
`inferSeverityUrgency(notesText, issueCategory, activeLeakFlag)` described in
section 4.2 of the specification is not present under src/ (the repository
delegates severity and urgency to the extraction call).  Following the spec
words: an active-leak flag or a "leak" substring in the lowercased notes
returns (High, Immediate); otherwise the issue category is classified against
a fixed high set and a fixed low set, with (Moderate, Soon) as the default. -/
def inferSeverityUrgency (notesText issueCategory : String) (activeLeakFlag : Bool) :
    String × String :=
  if activeLeakFlag || containsSub (pyLower notesText).data "leak".data then
    ("High", "Immediate")
  else if issueCategory ∈ (["Puncture/tear", "Open seam/lap", "Flashing concern",
      "Clogged drain/scupper"] : List String) then
    ("High", "Soon")
  else if issueCategory ∈ (["Debris", "Blistering/ridging", "Mechanical damage",
      "Moisture concern"] : List String) then
    ("Low", "Routine")
  else ("Moderate", "Soon")

/-- A string that is already stripped and non-blank. -/
def cleanStr (s : String) : Bool :=
  decide (pyStrip s = s ∧ s ≠ "")

/-- A value that is a clean string. -/
def cleanVal : Value → Bool
  | .str s => cleanStr s
  | _ => false

/-- A list of values that are all clean strings. -/
def cleanVList (l : List Value) : Bool :=
  l.all cleanVal

/-- The internal-report invariant: exactly the eleven documented keys in
order, clean string fields, a Boolean leak flag, clean string lists, and enum
fields inside their sets. -/
def validInternal : List (String × Value) → Bool
  | [(a1, .str ss), (a2, .str rs), (a3, .str pi2), (a4, .str lo), (a5, .bool _),
     (a6, .list ob), (a7, .list ic), (a8, .list pc), (a9, .list rn),
     (a10, .str sv), (a11, .str ur)] =>
    ([a1, a2, a3, a4, a5, a6, a7, a8, a9, a10, a11] ==
      ["service_summary", "roof_system", "primary_issue", "location",
       "active_leak_reported", "observations", "installation_site_conditions",
       "potential_concerns", "recommended_next_steps", "severity", "urgency"]) &&
    cleanStr ss && cleanStr rs && cleanStr pi2 && cleanStr lo &&
    cleanVList ob && cleanVList ic && cleanVList pc && cleanVList rn &&
    decide (sv ∈ SEVERITY_SET) && decide (ur ∈ URGENCY_SET)
  | _ => false

/-- The customer-report invariant: exactly the five documented keys in order,
clean string fields, clean string lists, and the priority in the urgency
set. -/
def validCustomer : List (String × Value) → Bool
  | [(b1, .str wf), (b2, .str wm), (b3, .list wl), (b4, .list rn2), (b5, .str pr)] =>
    ([b1, b2, b3, b4, b5] ==
      ["what_we_found", "why_this_matters", "what_this_could_lead_to",
       "recommended_next_steps", "priority"]) &&
    cleanStr wf && cleanStr wm && cleanVList wl && cleanVList rn2 &&
    decide (pr ∈ URGENCY_SET)
  | _ => false

/-- The record invariant of the schema: exactly the documented keys, a valid
internal report, a valid customer report, and clarifying questions that are
clean strings. -/
def ValidRecordB (v : Value) : Bool :=
  match v with
  | .dict [(k1, .dict il), (k2, .dict cl), (k3, .list qs)] =>
    ([k1, k2, k3] == ["internal_report", "customer_report", "clarifying_questions"]) &&
    validInternal il && validCustomer cl && cleanVList qs
  | _ => false

lemma dropWhile_head_false (p : Char → Bool) (l : List Char) :
    ∀ c ∈ (l.dropWhile p).head?, p c = false := by
  induction l with
  | nil => simp
  | cons a t ih =>
    by_cases h : p a
    · simpa [List.dropWhile_cons, h] using ih
    · simp [List.dropWhile_cons, h]

lemma dropWhile_eq_self_of_head (p : Char → Bool) (l : List Char)
    (h : ∀ c ∈ l.head?, p c = false) : l.dropWhile p = l := by
  cases l with
  | nil => rfl
  | cons a t => simp [List.dropWhile_cons, h a (by simp)]

lemma getLast?_dropWhile (p : Char → Bool) (l : List Char)
    (h : l.dropWhile p ≠ []) : (l.dropWhile p).getLast? = l.getLast? := by
  induction l with
  | nil => simp at h
  | cons a t ih =>
    by_cases hp : p a
    · rw [List.dropWhile_cons, if_pos hp] at h ⊢
      rw [ih h]
      have ht : t ≠ [] := by
        intro he
        rw [he] at h
        simp [List.dropWhile] at h
      cases t with
      | nil => exact absurd rfl ht
      | cons b u => simp [List.getLast?_cons_cons]
    · rw [List.dropWhile_cons, if_neg hp]

lemma pyStripChars_idem (l : List Char) : pyStripChars (pyStripChars l) = pyStripChars l := by
  unfold pyStripChars
  have h2 : (((l.dropWhile pySpace).reverse.dropWhile pySpace).reverse).dropWhile pySpace
      = ((l.dropWhile pySpace).reverse.dropWhile pySpace).reverse := by
    apply dropWhile_eq_self_of_head
    intro c hc
    rw [List.head?_reverse] at hc
    by_cases hE : (l.dropWhile pySpace).reverse.dropWhile pySpace = []
    · rw [hE] at hc
      simp at hc
    · rw [getLast?_dropWhile pySpace _ hE, List.getLast?_reverse] at hc
      exact dropWhile_head_false pySpace l c hc
  rw [h2, List.reverse_reverse]
  have h3 : ((l.dropWhile pySpace).reverse.dropWhile pySpace).dropWhile pySpace
      = (l.dropWhile pySpace).reverse.dropWhile pySpace := by
    apply dropWhile_eq_self_of_head
    intro c hc
    exact dropWhile_head_false pySpace _ c hc
  rw [h3]

lemma pyStrip_idem (s : String) : pyStrip (pyStrip s) = pyStrip s := by
  show String.mk (pyStripChars (String.mk (pyStripChars s.data)).data) = _
  show String.mk (pyStripChars (pyStripChars s.data)) = _
  rw [pyStripChars_idem]
  rfl

lemma as_str_spec (v : Value) (d : String) :
    as_str v d = d ∨ (as_str v d = pyStrip (pyStr v) ∧ pyStrip (pyStr v) ≠ "") := by
  cases v with
  | null => exact Or.inl rfl
  | bool b =>
    by_cases h : pyStrip (pyStr (Value.bool b)) = "" <;> simp [as_str, h]
  | int n =>
    by_cases h : pyStrip (pyStr (Value.int n)) = "" <;> simp [as_str, h]
  | str s =>
    by_cases h : pyStrip (pyStr (Value.str s)) = "" <;> simp [as_str, h]
  | list xs =>
    by_cases h : pyStrip (pyStr (Value.list xs)) = "" <;> simp [as_str, h]
  | dict ps =>
    by_cases h : pyStrip (pyStr (Value.dict ps)) = "" <;> simp [as_str, h]

lemma cleanStr_iff (s : String) : cleanStr s = true ↔ pyStrip s = s ∧ s ≠ "" := by
  simp [cleanStr]

lemma cleanStr_as_str (v : Value) (d : String) (hd : cleanStr d = true) :
    cleanStr (as_str v d) = true := by
  rcases as_str_spec v d with h | ⟨h, hne⟩
  · rw [h]; exact hd
  · rw [h, cleanStr_iff]
    exact ⟨pyStrip_idem _, hne⟩

lemma as_str_of_clean (s d : String) (h1 : pyStrip s = s) (h2 : s ≠ "") :
    as_str (.str s) d = s := by
  simp [as_str, pyStr, h1, h2]

lemma as_str_idem (v : Value) (d : String) (hd : cleanStr d = true) :
    as_str (.str (as_str v d)) d = as_str v d := by
  have h := (cleanStr_iff _).mp (cleanStr_as_str v d hd)
  exact as_str_of_clean _ _ h.1 h.2

lemma as_list_clean (v : Value) : ∀ s ∈ as_list v, pyStrip s = s ∧ s ≠ "" := by
  intro s hs
  cases v with
  | null => simp [as_list] at hs
  | bool b => simp [as_list] at hs
  | int n => simp [as_list] at hs
  | dict ps => simp [as_list] at hs
  | list xs =>
    simp only [as_list] at hs
    rcases List.mem_filter.mp hs with ⟨hm, hne⟩
    rcases List.mem_map.mp hm with ⟨x, _, rfl⟩
    refine ⟨pyStrip_idem _, ?_⟩
    simpa using hne
  | str t =>
    simp only [as_list] at hs
    by_cases h : pyStrip t = ""
    · simp [h] at hs
    · rw [if_pos (by simpa using h)] at hs
      rcases List.mem_singleton.mp hs with rfl
      exact ⟨pyStrip_idem _, h⟩

lemma cleanVList_iff (l : List Value) :
    cleanVList l = true ↔ ∀ x ∈ l, cleanVal x = true := by
  simp [cleanVList, List.all_eq_true]

lemma cleanVList_as_list (v : Value) : cleanVList ((as_list v).map Value.str) = true := by
  rw [cleanVList_iff]
  intro x hx
  rcases List.mem_map.mp hx with ⟨s, hs, rfl⟩
  have := as_list_clean v s hs
  show cleanStr s = true
  rw [cleanStr_iff]
  exact this

lemma pyStr_str (s : String) : pyStr (Value.str s) = s := rfl

lemma filter_map_clean (l : List String) (h : ∀ s ∈ l, pyStrip s = s ∧ s ≠ "") :
    ((l.map Value.str).map (fun x => pyStrip (pyStr x))).filter (fun s => s != "") = l := by
  induction l with
  | nil => rfl
  | cons a t ih =>
    have ha := h a (List.mem_cons_self a t)
    have ht := ih (fun s hs => h s (List.mem_cons_of_mem _ hs))
    simp only [List.map_cons, List.filter_cons, pyStr_str, ha.1]
    rw [if_pos (by simpa using ha.2), ht]

lemma as_list_roundtrip (l : List String) (h : ∀ s ∈ l, pyStrip s = s ∧ s ≠ "") :
    as_list (strList l) = l :=
  filter_map_clean l h

lemma as_list_strList (v : Value) : as_list (strList (as_list v)) = as_list v :=
  as_list_roundtrip _ (as_list_clean v)

lemma coerceEnum_mem (v : Value) (d fb : String) (allowed : List String)
    (h : fb ∈ allowed) : coerceEnum v d fb allowed ∈ allowed := by
  show (if pyTitle (as_str v d) ∈ allowed then pyTitle (as_str v d) else fb) ∈ allowed
  split
  · assumption
  · exact h

lemma coerceEnum_fix (s d fb : String) (allowed : List String)
    (hs : s ∈ allowed)
    (hclean : ∀ x ∈ allowed, pyStrip x = x ∧ x ≠ "" ∧ pyTitle x = x) :
    coerceEnum (.str s) d fb allowed = s := by
  obtain ⟨h1, h2, h3⟩ := hclean s hs
  show (if pyTitle (as_str (Value.str s) d) ∈ allowed
      then pyTitle (as_str (Value.str s) d) else fb) = s
  rw [as_str_of_clean s d h1 h2, h3, if_pos hs]

lemma severity_clean : ∀ x ∈ SEVERITY_SET, pyStrip x = x ∧ x ≠ "" ∧ pyTitle x = x := by
  decide

lemma urgency_clean : ∀ x ∈ URGENCY_SET, pyStrip x = x ∧ x ≠ "" ∧ pyTitle x = x := by
  decide

/-- C1: the validator is total on mappings.  For every mapping input it
returns, without raising, a record satisfying every schema invariant
(`ValidRecordB`: exactly the documented keys, severity in its set, urgency and
priority in their set, a Boolean leak flag, non-blank string fields, sequence
fields that are lists of non-blank trimmed strings); for every non-mapping
input it raises the schema error. -/
theorem c1_validator_total (v : Value) :
    (v.isDict = true →
      ∃ r, normalize_and_validate_dual v = .ok r ∧ ValidRecordB r = true) ∧
    (v.isDict = false →
      normalize_and_validate_dual v = .error "Parsed JSON is not an object.") := by
  constructor
  · intro h
    cases v with
    | dict kvs =>
      refine ⟨_, rfl, ?_⟩
      simp only [ValidRecordB, validInternal, validCustomer, strList,
        Bool.and_eq_true, decide_eq_true_eq]
      repeat' apply And.intro
      all_goals first
        | rfl
        | exact cleanStr_as_str _ _ (by decide)
        | exact cleanVList_as_list _
        | exact coerceEnum_mem _ _ _ _ (by decide)
        | exact coerceEnum_mem _ _ _ _ (coerceEnum_mem _ _ _ _ (by decide))
    | null => simp [Value.isDict] at h
    | bool b => simp [Value.isDict] at h
    | int n => simp [Value.isDict] at h
    | str s => simp [Value.isDict] at h
    | list xs => simp [Value.isDict] at h
  · intro h
    cases v with
    | dict kvs => simp [Value.isDict] at h
    | null => rfl
    | bool b => rfl
    | int n => rfl
    | str s => rfl
    | list xs => rfl

/-- Witness for C1: the empty mapping validates to a record satisfying the
invariant. -/
theorem c1_witness :
    ∃ r, normalize_and_validate_dual (Value.dict []) = .ok r ∧ ValidRecordB r = true :=
  (c1_validator_total (Value.dict [])).1 rfl

/-- Field access on a dict value (null on anything else). -/
def Value.getd (v : Value) (k : String) : Value :=
  match v with
  | .dict kvs => lookupd kvs k
  | _ => .null

/-- The string stored at record section `sect`, field `field`. -/
def strAt (v : Value) (sect field : String) : Option String :=
  match (v.getd sect).getd field with
  | .str s => some s
  | _ => none

/-- The enum fields of a validated record, expressed through `coerceEnum`. -/
lemma nvd_fields (kvs : List (String × Value)) :
    ∃ r, normalize_and_validate_dual (Value.dict kvs) = .ok r ∧
      strAt r "internal_report" "severity" =
        some (coerceEnum (lookupd (subDict kvs "internal_report") "severity")
          "Moderate" "Moderate" SEVERITY_SET) ∧
      strAt r "internal_report" "urgency" =
        some (coerceEnum (lookupd (subDict kvs "internal_report") "urgency")
          "Soon" "Soon" URGENCY_SET) ∧
      strAt r "customer_report" "priority" =
        some (coerceEnum (lookupd (subDict kvs "customer_report") "priority") "Soon"
          (coerceEnum (lookupd (subDict kvs "internal_report") "urgency")
            "Soon" "Soon" URGENCY_SET) URGENCY_SET) ∧
      strAt r "internal_report" "service_summary" =
        some (as_str (lookupd (subDict kvs "internal_report") "service_summary")
          "Not specified") := by
  exact ⟨_, rfl, rfl, rfl, rfl, rfl⟩

/-- The coercion applied to a string-valued enum field whose default is a
fixed point of title-casing inside the allowed set: the result is the
title-cased trimmed input when that lies in the set and the default
otherwise. -/
lemma coerceEnum_str_default (s d : String) (allowed : List String)
    (hd : pyTitle d = d) (hdm : d ∈ allowed) (hem : "" ∉ allowed) :
    coerceEnum (.str s) d d allowed =
      if pyTitle (pyStrip s) ∈ allowed then pyTitle (pyStrip s) else d := by
  show (if pyTitle (as_str (Value.str s) d) ∈ allowed
      then pyTitle (as_str (Value.str s) d) else d) = _
  by_cases h : pyStrip s = ""
  · have ha : as_str (Value.str s) d = d := by
      simp [as_str, pyStr_str, h]
    rw [ha, hd, if_pos hdm, h]
    have h0 : pyTitle "" = "" := rfl
    rw [h0, if_neg hem]
  · have ha : as_str (Value.str s) d = pyStrip s := by
      simp [as_str, pyStr_str, h]
    rw [ha]

/-- The coercion applied to a string-valued enum field that is non-blank and
whose title-cased trimmed form is outside the allowed set yields the
fallback. -/
lemma coerceEnum_str_fb (p d fb : String) (allowed : List String)
    (hne : pyStrip p ≠ "") (hnot : pyTitle (pyStrip p) ∉ allowed) :
    coerceEnum (.str p) d fb allowed = fb := by
  show (if pyTitle (as_str (Value.str p) d) ∈ allowed
      then pyTitle (as_str (Value.str p) d) else fb) = fb
  have ha : as_str (Value.str p) d = pyStrip p := by
    simp [as_str, pyStr_str, hne]
  rw [ha, if_neg hnot]

/-- C2 (counterexample): the claim that severity is the title-cased input
value when that lies in the severity set and "Moderate" otherwise fails at
the input severity " low ": its title-cased form " Low " is not in the set,
yet the code returns "Low" (it trims before title-casing), not "Moderate". -/
theorem c2_counterexample :
    pyTitle " low " ∉ SEVERITY_SET ∧
    (∃ r, normalize_and_validate_dual
        (Value.dict [("internal_report", Value.dict [("severity", Value.str " low ")])]) =
        .ok r ∧ strAt r "internal_report" "severity" = some "Low") ∧
    some "Low" ≠ some "Moderate" := by
  refine ⟨by decide, ⟨_, rfl, rfl⟩, by decide⟩

/-- C2 (amended): after validation, internal severity is the title-cased
trimmed input string if that lies in the severity set and "Moderate"
otherwise; internal urgency likewise with fallback "Soon"; and customer
priority, when its trimmed input is non-blank and its title-cased trimmed
form is not in the urgency set, equals the already-coerced internal urgency. -/
theorem c2_enum_coercion (kvs ikvs ckvs : List (String × Value)) (s u p : String)
    (hi : lookupd kvs "internal_report" = Value.dict ikvs)
    (hc : lookupd kvs "customer_report" = Value.dict ckvs)
    (hs : lookupd ikvs "severity" = Value.str s)
    (hu : lookupd ikvs "urgency" = Value.str u)
    (hp : lookupd ckvs "priority" = Value.str p) :
    ∃ r, normalize_and_validate_dual (Value.dict kvs) = .ok r ∧
      strAt r "internal_report" "severity" =
        some (if pyTitle (pyStrip s) ∈ SEVERITY_SET then pyTitle (pyStrip s) else "Moderate") ∧
      strAt r "internal_report" "urgency" =
        some (if pyTitle (pyStrip u) ∈ URGENCY_SET then pyTitle (pyStrip u) else "Soon") ∧
      (pyStrip p ≠ "" → pyTitle (pyStrip p) ∉ URGENCY_SET →
        strAt r "customer_report" "priority" = strAt r "internal_report" "urgency") := by
  obtain ⟨r, hr, h1, h2, h3, _⟩ := nvd_fields kvs
  have hsub : subDict kvs "internal_report" = ikvs := by
    rw [subDict, hi]
  have hsubc : subDict kvs "customer_report" = ckvs := by
    rw [subDict, hc]
  rw [hsub] at h1 h2 h3
  rw [hs] at h1
  rw [hu] at h2 h3
  rw [hsubc, hp] at h3
  refine ⟨r, hr, ?_, ?_, ?_⟩
  · rw [h1, coerceEnum_str_default s "Moderate" SEVERITY_SET (by decide) (by decide) (by decide)]
  · rw [h2, coerceEnum_str_default u "Soon" URGENCY_SET (by decide) (by decide) (by decide)]
  · intro hne hnot
    rw [h3, coerceEnum_str_fb p "Soon" _ URGENCY_SET hne hnot, h2]

/-- Witness for C2 (amended): concrete inputs exercising the in-set,
out-of-set, and priority-fallback branches. -/
theorem c2_witness :
    ∃ r, normalize_and_validate_dual (Value.dict [
        ("internal_report", Value.dict [
          ("severity", Value.str " LOW "), ("urgency", Value.str "whenever")]),
        ("customer_report", Value.dict [("priority", Value.str "bogus")])]) = .ok r ∧
      strAt r "internal_report" "severity" =
        some (if pyTitle (pyStrip " LOW ") ∈ SEVERITY_SET
          then pyTitle (pyStrip " LOW ") else "Moderate") ∧
      strAt r "internal_report" "urgency" =
        some (if pyTitle (pyStrip "whenever") ∈ URGENCY_SET
          then pyTitle (pyStrip "whenever") else "Soon") ∧
      (pyStrip "bogus" ≠ "" → pyTitle (pyStrip "bogus") ∉ URGENCY_SET →
        strAt r "customer_report" "priority" = strAt r "internal_report" "urgency") :=
  c2_enum_coercion _ _ _ _ _ _ rfl rfl rfl rfl rfl

/-- Whether a value is a Boolean or a string (the two shapes `_as_bool`
inspects). -/
def Value.isBoolOrStr : Value → Bool
  | .bool _ => true
  | .str _ => true
  | _ => false

lemma as_bool_str (s : String) :
    as_bool (Value.str s) =
      decide (pyLower (pyStrip s) ∈ (["true", "yes", "y"] : List String)) := by
  show (if pyLower (pyStrip s) ∈ (["true", "yes", "y"] : List String) then true
    else if pyLower (pyStrip s) ∈ (["false", "no", "n"] : List String) then false
    else false) = _
  by_cases h : pyLower (pyStrip s) ∈ (["true", "yes", "y"] : List String)
  · simp [h]
  · simp [h]

lemma not_truthy_of_falsy (t : String) (h : t ∈ (["false", "no", "n"] : List String)) :
    t ∉ (["true", "yes", "y"] : List String) := by
  simp only [List.mem_cons, List.not_mem_nil, or_false] at h ⊢
  rcases h with rfl | rfl | rfl <;> decide

/-- C3: the Boolean coercion table of `_as_bool`: Booleans are returned
unchanged; strings whose trimmed lowercase form is "true"/"yes"/"y" map to
true; strings whose trimmed lowercase form is "false"/"no"/"n" map to false;
any string outside the truthy set and every non-Boolean non-string value
(None, numbers, lists, dicts) maps to false. -/
theorem c3_as_bool_table (v : Value) :
    (∀ b, v = Value.bool b → as_bool v = b) ∧
    (∀ s, v = Value.str s →
      ((pyLower (pyStrip s) ∈ (["true", "yes", "y"] : List String) → as_bool v = true) ∧
       (pyLower (pyStrip s) ∈ (["false", "no", "n"] : List String) → as_bool v = false) ∧
       (pyLower (pyStrip s) ∉ (["true", "yes", "y"] : List String) → as_bool v = false))) ∧
    (Value.isBoolOrStr v = false → as_bool v = false) := by
  refine ⟨?_, ?_, ?_⟩
  · rintro b rfl
    rfl
  · rintro s rfl
    refine ⟨?_, ?_, ?_⟩
    · intro h
      rw [as_bool_str, decide_eq_true h]
    · intro h
      rw [as_bool_str, decide_eq_false (not_truthy_of_falsy _ h)]
    · intro h
      rw [as_bool_str, decide_eq_false h]
  · intro h
    cases v with
    | bool b => simp [Value.isBoolOrStr] at h
    | str s => simp [Value.isBoolOrStr] at h
    | null => rfl
    | int n => rfl
    | list xs => rfl
    | dict ps => rfl

/-- Witness for C3: the four examples of the coercion table from the spec. -/
theorem c3_witness :
    as_bool (Value.str "yes") = true ∧ as_bool (Value.str "No") = false ∧
    as_bool Value.null = false ∧ as_bool (Value.int 42) = false := by
  refine ⟨?_, ?_, ?_, ?_⟩
  · exact ((c3_as_bool_table (Value.str "yes")).2.1 "yes" rfl).1 (by decide)
  · exact ((c3_as_bool_table (Value.str "No")).2.1 "No" rfl).2.1 (by decide)
  · exact (c3_as_bool_table Value.null).2.2 rfl
  · exact (c3_as_bool_table (Value.int 42)).2.2 rfl

/-- C4 (counterexample): the claim maps every non-empty scalar string to the
one-element list of its trimmed form, but the whitespace-only string " " is
non-empty, its trimmed form is "", and `_as_list` returns the empty list, not
[""]. -/
theorem c4_counterexample :
    (" " : String) ≠ "" ∧ pyStrip " " = "" ∧ as_list (Value.str " ") = [] ∧
    ([] : List String) ≠ [pyStrip " "] := by
  refine ⟨by decide, by decide, rfl, by decide⟩

/-- C4 (amended): string fields: null and blank strings normalize to
"Not specified", any other scalar with a non-blank trimmed str() form
normalizes to that trimmed form; sequence fields: null normalizes to the
empty list, a scalar string that is non-blank after trimming to the
one-element list of its trimmed form, a whitespace-only string to the empty
list, and a list element-wise to trimmed string forms with blank entries
dropped. -/
theorem c4_field_normalization :
    (as_str Value.null "Not specified" = "Not specified") ∧
    (∀ s, pyStrip s = "" → as_str (Value.str s) "Not specified" = "Not specified") ∧
    (∀ v, Value.isScalar v = true → pyStrip (pyStr v) ≠ "" →
      as_str v "Not specified" = pyStrip (pyStr v)) ∧
    (as_list Value.null = []) ∧
    (∀ s, pyStrip s ≠ "" → as_list (Value.str s) = [pyStrip s]) ∧
    (∀ s, pyStrip s = "" → as_list (Value.str s) = []) ∧
    (∀ xs, as_list (Value.list xs) =
      (xs.map (fun x => pyStrip (pyStr x))).filter (fun t => t != "")) := by
  refine ⟨rfl, ?_, ?_, rfl, ?_, ?_, fun xs => rfl⟩
  · intro s h
    simp [as_str, pyStr_str, h]
  · intro v hv hne
    cases v with
    | null => simp [Value.isScalar] at hv
    | list xs => simp [Value.isScalar] at hv
    | dict ps => simp [Value.isScalar] at hv
    | bool b => simp [as_str, hne]
    | int n => simp [as_str, hne]
    | str s => simp [as_str, hne]
  · intro s h
    simp [as_list, h]
  · intro s h
    simp [as_list, h]

/-- Witness for C4 (amended): concrete inputs exercising the blank-string
default, the scalar trim, the singleton list, and the whitespace-only empty
list. -/
theorem c4_witness :
    as_str (Value.str "  ") "Not specified" = "Not specified" ∧
    as_str (Value.int 7) "Not specified" = pyStrip (pyStr (Value.int 7)) ∧
    as_list (Value.str " inspect ") = [pyStrip " inspect "] ∧
    as_list (Value.str "\t") = [] := by
  refine ⟨?_, ?_, ?_, ?_⟩
  · exact c4_field_normalization.2.1 "  " (by decide)
  · exact c4_field_normalization.2.2.1 (Value.int 7) rfl (by decide)
  · exact c4_field_normalization.2.2.2.2.1 " inspect " (by decide)
  · exact c4_field_normalization.2.2.2.2.2.1 "\t" (by decide)

/-- C5: parseJsonish first attempts a strict parse of the trimmed text; on
failure it re-parses the substring from the first opening brace to the last
closing brace inclusive when that exists with the closing brace strictly
after the opening one; it errors exactly when the strict parse fails and
either no such enclosing pair exists or the salvaged substring also fails to
parse. -/
theorem c5_safe_json_load (text : String) :
    (∀ v, json_loads (pyStrip text) = .ok v → safe_json_load text = .ok v) ∧
    (∀ e sub, json_loads (pyStrip text) = .error e →
      salvageText (pyStrip text) = some sub → safe_json_load text = json_loads sub) ∧
    (∀ e, json_loads (pyStrip text) = .error e → salvageText (pyStrip text) = none →
      safe_json_load text = .error e) ∧
    (isErr (safe_json_load text) = true ↔
      (isErr (json_loads (pyStrip text)) = true ∧
        (salvageText (pyStrip text) = none ∨
          ∃ sub, salvageText (pyStrip text) = some sub ∧ isErr (json_loads sub) = true))) := by
  refine ⟨?_, ?_, ?_, ?_⟩
  · intro v hv
    simp only [safe_json_load, hv]
  · intro e sub he hsub
    simp only [safe_json_load, he, hsub]
  · intro e he hnone
    simp only [safe_json_load, he, hnone]
  · constructor
    · intro h
      cases hj : json_loads (pyStrip text) with
      | ok v =>
        have hv : safe_json_load text = .ok v := by simp only [safe_json_load, hj]
        rw [hv] at h
        simp [isErr] at h
      | error e =>
        refine ⟨rfl, ?_⟩
        cases hsal : salvageText (pyStrip text) with
        | none => exact Or.inl rfl
        | some sub =>
          refine Or.inr ⟨sub, rfl, ?_⟩
          simp only [safe_json_load, hj, hsal] at h
          exact h
    · rintro ⟨h1, h2⟩
      cases hj : json_loads (pyStrip text) with
      | ok v =>
        rw [hj] at h1
        simp [isErr] at h1
      | error e =>
        rcases h2 with hnone | ⟨sub, hsub, herr⟩
        · simp only [safe_json_load, hj, hnone, isErr]
        · simp only [safe_json_load, hj, hsub]
          exact herr

/-- Witness for C5: the wrapped-JSON scenario from the spec: the strict parse
fails and the brace-enclosed substring is re-parsed. -/
theorem c5_witness :
    safe_json_load "here is the json: \x7b\"internal_report\": \x7b\x7d\x7d done." =
      json_loads "\x7b\"internal_report\": \x7b\x7d\x7d" :=
  (c5_safe_json_load _).2.1 "Expecting value" _ (by rfl) (by rfl)

/-- C6 (counterexample): when the extractor returns valid JSON that is not an
object (here the array [1, 2]), parseJsonish succeeds and validate raises a
ValueError; the code classifies this in the generic unexpected-error
category, not in the invalid-output/retry-or-manual category the claim
requires for raises from validate. -/
theorem c6_counterexample :
    normalize_notes_with_gpt (.success (some "[1, 2]")) =
      (none, none, some ("Unexpected error: " ++ "Parsed JSON is not an object.")) ∧
    ("Unexpected error: " ++ "Parsed JSON is not an object.") ≠ invalidJsonMsg :=
  ⟨rfl, by decide⟩

/-- C6 (amended): the orchestrator always returns a triple and never lets a
fault escape; rate-limit faults get the temporarily-unavailable/use-manual
message, timeout and service faults get "AI service error: <detail>", a parse
failure from parseJsonish gets the invalid-output/retry-or-manual message,
while the schema ValueError raised by validate lands in the generic
"Unexpected error:" category; in every failure case the record and the raw
payload are null. -/
theorem c6_failure_classification :
    (normalize_notes_with_gpt .rateLimit = (none, none, some rateLimitMsg)) ∧
    (∀ d, normalize_notes_with_gpt (.timeout d) =
      (none, none, some ("AI service error: " ++ d))) ∧
    (∀ d, normalize_notes_with_gpt (.apiError d) =
      (none, none, some ("AI service error: " ++ d))) ∧
    (∀ d, normalize_notes_with_gpt (.other d) =
      (none, none, some ("Unexpected error: " ++ d))) ∧
    (∀ c, isErr (safe_json_load (c.getD "")) = true →
      normalize_notes_with_gpt (.success c) = (none, none, some invalidJsonMsg)) ∧
    (∀ c p m, safe_json_load (c.getD "") = .ok p →
      normalize_and_validate_dual p = .error m →
      normalize_notes_with_gpt (.success c) =
        (none, none, some ("Unexpected error: " ++ m))) ∧
    (∀ o m, (normalize_notes_with_gpt o).2.2 = some m →
      (normalize_notes_with_gpt o).1 = none ∧ (normalize_notes_with_gpt o).2.1 = none) := by
  refine ⟨rfl, fun d => rfl, fun d => rfl, fun d => rfl, ?_, ?_, ?_⟩
  · intro c h
    cases hs : safe_json_load (c.getD "") with
    | error e => simp only [normalize_notes_with_gpt, hs]
    | ok p =>
      rw [hs] at h
      simp [isErr] at h
  · intro c p m hs hv
    simp only [normalize_notes_with_gpt, hs, hv]
  · intro o m h
    cases o with
    | success c =>
      cases hs : safe_json_load (c.getD "") with
      | error e => simp [normalize_notes_with_gpt, hs]
      | ok p =>
        cases hv : normalize_and_validate_dual p with
        | error m2 => simp [normalize_notes_with_gpt, hs, hv]
        | ok r => simp [normalize_notes_with_gpt, hs, hv] at h
    | rateLimit => simp [normalize_notes_with_gpt]
    | timeout d => simp [normalize_notes_with_gpt]
    | apiError d => simp [normalize_notes_with_gpt]
    | other d => simp [normalize_notes_with_gpt]

/-- Witness for C6 (amended): a validate raise (top-level JSON null) lands in
the generic category and an unparseable payload lands in the invalid-output
category. -/
theorem c6_witness :
    normalize_notes_with_gpt (.success (some "null")) =
      (none, none, some ("Unexpected error: " ++ "Parsed JSON is not an object.")) ∧
    normalize_notes_with_gpt (.success (some "nonsense")) =
      (none, none, some invalidJsonMsg) :=
  ⟨c6_failure_classification.2.2.2.2.2.1 (some "null") Value.null
      "Parsed JSON is not an object." (by rfl) (by rfl),
    c6_failure_classification.2.2.2.2.1 (some "nonsense") (by rfl)⟩

/-- C7: leak dominance of the severity/urgency inference (spec-modelled: this
derivation function is not present under src/): when the active-leak flag is
set or the lowercased notes contain the substring "leak", the result is
(High, Immediate) regardless of the issue category. -/
theorem c7_leak_dominance (notes issue : String) (flag : Bool)
    (h : flag = true ∨ containsSub (pyLower notes).data "leak".data = true) :
    inferSeverityUrgency notes issue flag = ("High", "Immediate") := by
  rcases h with h | h <;> simp [inferSeverityUrgency, h]

/-- Witness for C7: the spec scenario: a "leak" substring dominates the
low-set category "Debris". -/
theorem c7_witness :
    inferSeverityUrgency "leak near curb, raining last night" "Debris" false =
      ("High", "Immediate") :=
  c7_leak_dominance _ _ _ (Or.inr (by decide))

/-- C8: the manual customer narrative is a pure structural copy/template of
the internal record: what_we_found is templated from primary_issue,
why_this_matters is the space-join of installation_site_conditions when that
join is non-empty and a fixed generic sentence otherwise,
what_this_could_lead_to and recommended_next_steps are verbatim copies, and
priority copies the internal urgency; no output draws on anything else. -/
theorem c8_customer_narrative (R : InternalReport) :
    (generate_customer_from_internal R).what_we_found =
      "We identified a concern related to: " ++ R.primary_issue ++ "." ∧
    (generate_customer_from_internal R).why_this_matters =
      (if String.intercalate " " R.installation_site_conditions ≠ ""
        then String.intercalate " " R.installation_site_conditions
        else "Further conditions/details were not specified in the notes.") ∧
    (generate_customer_from_internal R).what_this_could_lead_to = R.potential_concerns ∧
    (generate_customer_from_internal R).recommended_next_steps = R.recommended_next_steps ∧
    (generate_customer_from_internal R).priority = R.urgency := by
  refine ⟨rfl, ?_, rfl, rfl, rfl⟩
  have hnil : String.intercalate " " ([] : List String) = "" := rfl
  by_cases h : R.installation_site_conditions = []
  · simp [generate_customer_from_internal, h, hnil]
  · simp [generate_customer_from_internal, h]

lemma as_bool_idem (v : Value) : as_bool (Value.bool (as_bool v)) = as_bool v := rfl

lemma as_str_idem_ns (v : Value) :
    as_str (Value.str (as_str v "Not specified")) "Not specified" = as_str v "Not specified" :=
  as_str_idem v _ (by decide)

lemma coerce_sev_idem (v : Value) :
    coerceEnum (Value.str (coerceEnum v "Moderate" "Moderate" SEVERITY_SET))
      "Moderate" "Moderate" SEVERITY_SET = coerceEnum v "Moderate" "Moderate" SEVERITY_SET :=
  coerceEnum_fix _ _ _ _ (coerceEnum_mem _ _ _ _ (by decide)) severity_clean

lemma coerce_urg_idem (v : Value) :
    coerceEnum (Value.str (coerceEnum v "Soon" "Soon" URGENCY_SET)) "Soon" "Soon" URGENCY_SET
      = coerceEnum v "Soon" "Soon" URGENCY_SET :=
  coerceEnum_fix _ _ _ _ (coerceEnum_mem _ _ _ _ (by decide)) urgency_clean

lemma coerce_pri_idem (p0 u0 : Value) (w : String) :
    coerceEnum (Value.str (coerceEnum p0 "Soon"
        (coerceEnum u0 "Soon" "Soon" URGENCY_SET) URGENCY_SET)) "Soon" w URGENCY_SET
      = coerceEnum p0 "Soon" (coerceEnum u0 "Soon" "Soon" URGENCY_SET) URGENCY_SET :=
  coerceEnum_fix _ _ _ _
    (coerceEnum_mem _ _ _ _ (coerceEnum_mem _ _ _ _ (by decide))) urgency_clean

/-- C9: validation is idempotent: validating a mapping succeeds, and
re-validating the validated record returns it unchanged. -/
theorem c9_idempotent (kvs : List (String × Value)) :
    ∃ r, normalize_and_validate_dual (Value.dict kvs) = .ok r ∧
      normalize_and_validate_dual r = .ok r := by
  refine ⟨_, rfl, ?_⟩
  simp [normalize_and_validate_dual, subDict, lookupd, as_str_idem_ns,
    as_bool_idem, as_list_strList, coerce_sev_idem, coerce_urg_idem, coerce_pri_idem]

/-- C10: in the manual-entry path, a submission whose service-summary text is
blank produces a validated record whose internal service_summary is the
sentinel "Manual entry provided." (the handler substitutes the sentinel
before validation and validation preserves non-blank strings). -/
theorem c10_manual_sentinel (summary roof issue loc : String) (leak : Bool)
    (obs conds concerns steps sev urg : String)
    (h : pyStrip summary = "") :
    ∃ r, manual_submit summary roof issue loc leak obs conds concerns steps sev urg = .ok r ∧
      strAt r "internal_report" "service_summary" = some "Manual entry provided." := by
  have h2 : (manual_internal summary roof issue loc leak obs conds concerns
      steps sev urg).service_summary = "Manual entry provided." := by
    simp [manual_internal, h]
  obtain ⟨r, hr, _, _, _, hss⟩ := nvd_fields
    [("internal_report", internalToValue (manual_internal summary roof issue loc leak
        obs conds concerns steps sev urg)),
     ("customer_report", customerToValue (generate_customer_from_internal
        (manual_internal summary roof issue loc leak obs conds concerns steps sev urg))),
     ("clarifying_questions", Value.list [])]
  refine ⟨r, hr, ?_⟩
  rw [hss]
  have h3 : lookupd (subDict
      [("internal_report", internalToValue (manual_internal summary roof issue loc leak
          obs conds concerns steps sev urg)),
       ("customer_report", customerToValue (generate_customer_from_internal
          (manual_internal summary roof issue loc leak obs conds concerns steps sev urg))),
       ("clarifying_questions", Value.list [])] "internal_report") "service_summary" =
      Value.str "Manual entry provided." := by
    simp [subDict, lookupd, internalToValue, h2]
  rw [h3, as_str_of_clean _ _ (by decide) (by decide)]

/-- Witness for C10: a whitespace-only service summary yields the sentinel. -/
theorem c10_witness :
    ∃ r, manual_submit "   " "TPO" "Ponding" "Field" false "obs" "cond" "conc" "step"
        "Moderate" "Soon" = .ok r ∧
      strAt r "internal_report" "service_summary" = some "Manual entry provided." :=
  c10_manual_sentinel "   " "TPO" "Ponding" "Field" false "obs" "cond" "conc" "step"
    "Moderate" "Soon" (by decide)
